import Mathlib

/-!
Verification of the background clipping orchestrator of the
grocery-autoclip-extension repository.

The definitions below are a shallow embedding of `src/content.ts`
(content script plus background script).  Line references are to that
file.  Conventions of the embedding:

* machine timestamps (`Date.now()`, ISO date strings) are modelled as
  `Int` milliseconds; the wall clock observed by a run is abstracted as
  an explicit `now` parameter;
* the per-offer message round trip `chrome.tabs.sendMessage(tabId,
  {action: 'clipOffer', offer})` is abstracted as an explicit
  `outcome : Offer → ClipOutcome` parameter (`.ok r` for a delivered
  response, `.threw e` for a rejected promise, caught at line 734);
* the externally shared `clippingState.isActive` flag, which an outside
  actor (popup stop, run supersession) may clear between batches, is
  abstracted as a `cancelledBefore : Nat → Bool` schedule:
  `cancelledBefore k = true` means the flag was observed cleared at the
  loop-condition check preceding batch `k` (0-based);
* JavaScript truthiness of optional strings (`item.clipId`,
  `x || 'default'`) is modelled explicitly: `none` and `some ""` are
  falsy.
-/

/-- Case-sensitive prefix test on character lists. -/
def charsStartWith : List Char → List Char → Bool
  | _, [] => true
  | [], _ :: _ => false
  | h :: hs, p :: ps => h == p && charsStartWith hs ps

/-- Case-sensitive contiguous containment of `pat` in a character list. -/
def charsContains (pat : List Char) : List Char → Bool
  | [] => pat.isEmpty
  | h :: hs => charsStartWith (h :: hs) pat || charsContains pat hs

/-- JavaScript `hay.includes(pat)`: case-sensitive substring test. -/
def strIncludes (hay pat : String) : Bool := charsContains pat.data hay.data

/-- `m?.includes(pat)` on an optional message: `undefined` is falsy. -/
def msgIncludes (m : Option String) (pat : String) : Bool :=
  match m with
  | none => false
  | some s => strIncludes s pat

/-- ASCII lowercase of one character (used only to state casing facts). -/
def lowerChar (c : Char) : Char :=
  if 65 ≤ c.toNat ∧ c.toNat ≤ 90 then Char.ofNat (c.toNat + 32) else c

/-- ASCII lowercase of a string (used only to state casing facts). -/
def lowerStr (s : String) : String := ⟨s.data.map lowerChar⟩

/-- JavaScript `m || dflt` for an optional string: `undefined` and `""`
are falsy and give the default. -/
def orElseStr (m : Option String) (dflt : String) : String :=
  match m with
  | none => dflt
  | some s => if s = "" then dflt else s

/-- JavaScript truthiness of an optional string (`item.clipId`). -/
def truthyStr (m : Option String) : Bool :=
  match m with
  | none => false
  | some s => s ≠ ""

/-- The `SkipReason` enum of `src/types.ts` lines 143-153. -/
inductive SkipReason where
  | expiredOrInactive
  | notAvailableInStore
  | notEligible
  | displayPeriodEnded
  | limitExceeded
  | unknown
  | unknownWithClipid
  | unexpectedResponse
  | cannotClip
deriving DecidableEq

/-- The `ClippingStats` counters (`src/types.ts` lines 74-81).  In the
background run all six fields are set at start, so they are total here. -/
structure ClippingStats where
  total : Nat
  processed : Nat
  clipped : Nat
  alreadyClipped : Nat
  skipped : Nat
  failed : Nat
deriving DecidableEq

/-- The slice of a `CouponOffer` the orchestrator inspects: the merge key
`id` and the provider clip timestamp `clipTs` (kept to state that the
persisted `clippedDate` is not the provider's clip time). -/
structure Offer where
  id : String
  clipTs : Option Int := none
deriving DecidableEq

/-- A durable `ClippedCoupon` record (`src/types.ts` lines 62-65): the
offer spread together with `clippedDate` and `status: 'clipped'`.  The
date is optional because the startup sweep (line 846) defends against
legacy records lacking one. -/
structure ClippedCoupon where
  offer : Offer
  clippedDate : Option Int
  status : String
deriving DecidableEq

/-- A durable `SkippedCoupon` record (`src/types.ts` lines 67-72). -/
structure SkippedCoupon where
  offer : Offer
  skippedDate : Int
  skipReason : SkipReason
  skipMessage : String
  status : String
deriving DecidableEq

/-- The response object built by `clipOffer` in the content script and
relayed verbatim by `handleClipOffer` (lines 348-364); absent optional
fields are the falsy defaults. -/
structure ClipResponse where
  success : Bool
  wasAlreadyClipped : Bool := false
  wasSkipped : Bool := false
  reason : Option SkipReason := none
  errorMsg : Option String := none
  error : Option String := none
deriving DecidableEq

/-- The first element of `result.items` inspected by `clipOffer`
(lines 254-286): numeric status, optional clip id, optional message. -/
structure ClipItem where
  status : Int
  clipId : Option String
  errorMsg : Option String
deriving DecidableEq

/-- The skip-reason sub-classification for a status-0 item without a
clip id, `clipOffer` lines 263-275, in source order. -/
def statusZeroNoClipReason (m : Option String) : SkipReason :=
  if msgIncludes m "region" || msgIncludes m "store" then .notAvailableInStore
  else if msgIncludes m "limit" || msgIncludes m "maximum" then .limitExceeded
  else if msgIncludes m "qualify" || msgIncludes m "eligible" then .notEligible
  else if msgIncludes m "display" || msgIncludes m "promotional period" then .displayPeriodEnded
  else .cannotClip

/-- True when the message matches the expiry patterns of line 261. -/
def expiredMsg (m : Option String) : Bool :=
  msgIncludes m "not yet active" || msgIncludes m "past expiry" || msgIncludes m "shutoff date"

/-- The offer classifier: the branch cascade of `clipOffer` over the
first response item, lines 257-286. -/
def classifyClipItem (it : ClipItem) : ClipResponse :=
  if it.status = 1 ∧ truthyStr it.clipId then
    { success := true, wasAlreadyClipped := false }
  else if it.status = 0 ∧ truthyStr it.clipId ∧ msgIncludes it.errorMsg "already clipped" then
    { success := true, wasAlreadyClipped := true }
  else if expiredMsg it.errorMsg then
    { success := true, wasSkipped := true, reason := some .expiredOrInactive,
      errorMsg := it.errorMsg }
  else if it.status = 0 ∧ ¬ truthyStr it.clipId then
    { success := true, wasSkipped := true,
      reason := some (statusZeroNoClipReason it.errorMsg), errorMsg := it.errorMsg }
  else if it.status = 0 ∧ truthyStr it.clipId then
    -- the inner `already clipped` test of line 278 is repeated here as in
    -- the source; it is unreachable past the branch of line 259
    if msgIncludes it.errorMsg "already clipped" then
      { success := true, wasAlreadyClipped := true }
    else
      { success := true, wasSkipped := true, reason := some .unknownWithClipid,
        errorMsg := some (orElseStr it.errorMsg "Has clipId but status 0") }
  else
    { success := true, wasSkipped := true, reason := some .unexpectedResponse,
      errorMsg := some (orElseStr it.errorMsg "No error message") }

/-- What the background script receives for one offer: the delivered
response, or the message of a rejected `sendMessage` promise. -/
inductive ClipOutcome where
  | ok (r : ClipResponse)
  | threw (e : String)
deriving DecidableEq

/-- The `OfferResult` record built per offer (lines 684-740). -/
structure OfferResult where
  offer : Offer
  success : Bool
  wasAlreadyClipped : Bool
  wasSkipped : Bool
  reason : Option SkipReason
  errorMsg : Option String
  error : Option String
deriving DecidableEq

/-- `response.error?.match(/(not yet active|past expiry|shutoff date)/)`
truthiness, line 719. -/
def errMatchesExpired (e : Option String) : Bool :=
  match e with
  | none => false
  | some s => strIncludes s "not yet active" || strIncludes s "past expiry" ||
      strIncludes s "shutoff date"

/-- Build the per-offer result, lines 701-740: the delivered response is
normalized (a skipped result with a missing or `unknown` reason becomes
`expired_or_inactive`, lines 713-716; an unskipped failure whose error
text matches the expiry patterns is rewritten to a skipped
`expired_or_inactive` success, lines 719-723); a rejected promise yields
a bare failure result (lines 734-739). -/
def toResult (o : Offer) : ClipOutcome → OfferResult
  | .threw e => ⟨o, false, false, false, none, none, some e⟩
  | .ok r =>
    let finalReason :=
      if r.wasSkipped && (r.reason.isNone || r.reason == some SkipReason.unknown) then
        some SkipReason.expiredOrInactive
      else r.reason
    if !r.wasSkipped && !r.success && errMatchesExpired r.error then
      ⟨o, true, r.wasAlreadyClipped, true, some .expiredOrInactive, r.errorMsg, r.error⟩
    else
      ⟨o, r.success, r.wasAlreadyClipped, r.wasSkipped, finalReason, r.errorMsg, r.error⟩

/-- The permanent-reason test of lines 757-761. -/
def isPermanent : SkipReason → Bool
  | .expiredOrInactive => true
  | .notAvailableInStore => true
  | .notEligible => true
  | .displayPeriodEnded => true
  | .limitExceeded => true
  | _ => false

/-- The `SkippedCoupon` record pushed at lines 762-768. -/
def mkSkippedRecord (r : OfferResult) (now : Int) : SkippedCoupon :=
  { offer := r.offer
    skippedDate := now
    skipReason := r.reason.getD .unknown
    skipMessage := orElseStr r.errorMsg "No specific message"
    status := "skipped" }

/-- The `ClippedCoupon` record pushed at lines 785-789. -/
def mkClippedRecord (o : Offer) (now : Int) : ClippedCoupon :=
  { offer := o, clippedDate := some now, status := "clipped" }

/-- The duplicate-guarded append loop shared by the clipped and skipped
merges (lines 783-798): fold the new items into the collection, skipping
any whose key is already present (the lookup sees records appended
earlier in the same fold, as `Array.find` does on the mutated array). -/
def mergeKeyed (getId : α → String) (idOf : β → String) (mk : β → α)
    (existing : List α) (newItems : List β) : List α :=
  newItems.foldl
    (fun acc b => if acc.any (fun c => getId c == idOf b) then acc else acc ++ [mk b])
    existing

/-- Merge freshly clipped offers into `clippedCoupons`, lines 783-791. -/
def mergeClipped (existing : List ClippedCoupon) (newOffers : List Offer) (now : Int) :
    List ClippedCoupon :=
  mergeKeyed (fun c => c.offer.id) (fun o => o.id) (fun o => mkClippedRecord o now)
    existing newOffers

/-- Merge freshly skipped records into `skippedCoupons`, lines 794-798. -/
def mergeSkipped (existing : List SkippedCoupon) (newRecs : List SkippedCoupon) :
    List SkippedCoupon :=
  mergeKeyed (fun c => c.offer.id) (fun s => s.offer.id) (fun s => s) existing newRecs

/-- The mutable state a background run manipulates: the shared active
flag, the live counters, and the two durable collections. -/
structure RunState where
  isActive : Bool
  stats : ClippingStats
  clippedCoupons : List ClippedCoupon
  skippedCoupons : List SkippedCoupon
deriving DecidableEq

/-- Settle one batch (lines 701-811): build every result, route each to
the new-clipped or new-permanently-skipped list (lines 749-771),
increment `processed` once per result (line 773; no other counter is
touched), then merge both lists into the durable collections. -/
def settleBatch (outcome : Offer → ClipOutcome) (now : Int) (batch : List Offer)
    (st : RunState) : RunState :=
  let results := batch.map (fun o => toResult o (outcome o))
  let newClipped := results.filterMap
    (fun r => if r.success && (r.wasAlreadyClipped || !r.wasSkipped) then some r.offer else none)
  let newSkipped := results.filterMap
    (fun r =>
      if r.success && !(r.wasAlreadyClipped || !r.wasSkipped) && r.wasSkipped &&
          isPermanent (r.reason.getD .unknown) then
        some (mkSkippedRecord r now)
      else none)
  { st with
    stats := { st.stats with processed := st.stats.processed + results.length }
    clippedCoupons := mergeClipped st.clippedCoupons newClipped now
    skippedCoupons := mergeSkipped st.skippedCoupons newSkipped }

/-- Helper for `chunksOf`: structural recursion on a fuel argument that
bounds the list length (the fuel never runs out when it starts at the
list's length, see `chunksOf_cons`). -/
def chunksOfAux (size : Nat) : Nat → List α → List (List α)
  | _, [] => []
  | 0, _ :: _ => []
  | fuel + 1, x :: xs => (x :: xs.take (size - 1)) :: chunksOfAux size fuel (xs.drop (size - 1))

/-- Partition into batches: `offers.slice(i, min(i+size, length))` with
`i` stepping by `size` (lines 698-699). -/
def chunksOf (size : Nat) (xs : List α) : List (List α) := chunksOfAux size xs.length xs

/-- `CONFIG.BATCH_SIZE` (line 388). -/
def BATCH_SIZE : Nat := 5

/-- The batch loop of lines 698-817: before each batch the loop condition
re-reads the shared active flag (an external cancellation recorded by
`cancelledBefore` clears it); an active iteration settles the batch.  The
returned list is the state after each settled batch, paired with the
state at loop exit. -/
def runBatches (outcome : Offer → ClipOutcome) (now : Int) (cancelledBefore : Nat → Bool) :
    Nat → List (List Offer) → RunState → List RunState × RunState
  | _, [], st => ([], st)
  | k, b :: bs, st =>
    if cancelledBefore k then ([], { st with isActive := false })
    else if st.isActive then
      let st' := settleBatch outcome now b st
      let rest := runBatches outcome now cancelledBefore (k + 1) bs st'
      (st' :: rest.1, rest.2)
    else ([], st)

/-- A full background run: `handleStartBackgroundClipping` initialization
(lines 658-667) followed by `processOffersInBackground` (lines 694-832),
over initial durable collections `clipped0` and `skipped0`.  Returns the
per-batch state trace and the final state (the completion block of lines
820-826 clears the flag only when the loop exited still active). -/
def processOffersInBackground (offers : List Offer) (outcome : Offer → ClipOutcome)
    (cancelledBefore : Nat → Bool) (now : Int)
    (clipped0 : List ClippedCoupon) (skipped0 : List SkippedCoupon) :
    List RunState × RunState :=
  let st0 : RunState :=
    { isActive := true
      stats := { total := offers.length, processed := 0, clipped := 0,
                 alreadyClipped := 0, skipped := 0, failed := 0 }
      clippedCoupons := clipped0
      skippedCoupons := skipped0 }
  let r := runBatches outcome now cancelledBefore 0 (chunksOf BATCH_SIZE offers) st0
  (r.1, if r.2.isActive then { r.2 with isActive := false } else r.2)

/-- The snapshot `handleStartBackgroundClipping` sends back. -/
structure StateSnapshot where
  isActive : Bool
  stats : ClippingStats
deriving DecidableEq

/-- The response of `handleStartBackgroundClipping` (lines 648-682): the
`offers` field of the message, when absent, makes `offers.length` throw,
and the catch block answers with the error; any present list (empty
included) yields a success snapshot with the run marked active. -/
def handleStartBackgroundClipping (offersField : Option (List Offer)) :
    Except String StateSnapshot :=
  match offersField with
  | none => .error "Cannot read properties of undefined (reading 'length')"
  | some offers =>
    .ok { isActive := true
          stats := { total := offers.length, processed := 0, clipped := 0,
                     alreadyClipped := 0, skipped := 0, failed := 0 } }

/-- `CONFIG.DATA_RETENTION_DAYS` (line 392). -/
def DATA_RETENTION_DAYS : Nat := 90

/-- `retentionCutoff = Date.now() - DATA_RETENTION_DAYS*24*60*60*1000`
(line 844). -/
def retentionCutoff (now : Int) : Int :=
  now - (DATA_RETENTION_DAYS : Int) * 24 * 60 * 60 * 1000

/-- The startup retention sweep over `clippedCoupons` (lines 843-853):
keep records lacking a date, and dated records strictly newer than the
cutoff. -/
def sweepRetention (now : Int) (coupons : List ClippedCoupon) : List ClippedCoupon :=
  coupons.filter
    (fun c =>
      match c.clippedDate with
      | none => true
      | some d => decide (retentionCutoff now < d))

/-- A `ClippingSession` history entry; its fields (id, date, stats,
duration, lines 619-624) play no role in the list bookkeeping, so the
record is abstract here. -/
structure Session where
  sessionId : Nat
deriving DecidableEq

/-- `CONFIG.MAX_SESSIONS` (line 391). -/
def MAX_SESSIONS : Nat := 50

/-- `CONFIG.MAX_SESSION_HISTORY` (line 393). -/
def MAX_SESSION_HISTORY : Nat := 100

/-- `saveClippingSession` list bookkeeping (lines 626-641): push the new
session, then `splice(0, length - MAX_SESSIONS)` when over the cap. -/
def saveClippingSession (sessions : List Session) (s : Session) : List Session :=
  let sessions := sessions ++ [s]
  if sessions.length > MAX_SESSIONS then
    sessions.drop (sessions.length - MAX_SESSIONS)
  else sessions

/-- The startup session trim (lines 856-859): only when the history
exceeds `MAX_SESSION_HISTORY`, keep `slice(-MAX_SESSIONS)`, the most
recent `MAX_SESSIONS` entries. -/
def startupTrimSessions (sessions : List Session) : List Session :=
  if sessions.length > MAX_SESSION_HISTORY then
    sessions.drop (sessions.length - MAX_SESSIONS)
  else sessions

/-! ### General lemmas about the embedding -/

theorem chunksOfAux_congr (size : Nat) :
    ∀ (fuel fuel' : Nat) (xs : List α), xs.length ≤ fuel → xs.length ≤ fuel' →
      chunksOfAux size fuel xs = chunksOfAux size fuel' xs := by
  intro fuel
  induction fuel with
  | zero =>
      intro fuel' xs h _
      have : xs = [] := List.length_eq_zero.mp (Nat.le_zero.mp h)
      subst this
      cases fuel' <;> rfl
  | succ fuel ih =>
      intro fuel' xs h h'
      cases xs with
      | nil => cases fuel' <;> rfl
      | cons x xs =>
          cases fuel' with
          | zero => simp at h'
          | succ fuel' =>
              simp only [chunksOfAux]
              congr 1
              apply ih
              · simp only [List.length_drop]
                simp at h
                omega
              · simp only [List.length_drop]
                simp at h'
                omega

theorem chunksOf_cons (size : Nat) (x : α) (xs : List α) :
    chunksOf size (x :: xs) =
      (x :: xs.take (size - 1)) :: chunksOf size (xs.drop (size - 1)) := by
  show chunksOfAux size (xs.length + 1) (x :: xs) = _
  simp only [chunksOfAux]
  congr 1
  apply chunksOfAux_congr
  · simp only [List.length_drop]; omega
  · exact le_rfl

theorem chunksOf_sum_length (n : Nat) (xs : List α) :
    ((chunksOf n xs).map List.length).sum = xs.length := by
  suffices h : ∀ (fuel : Nat) (ys : List α), ys.length ≤ fuel →
      ((chunksOfAux n fuel ys).map List.length).sum = ys.length by
    exact h xs.length xs le_rfl
  intro fuel
  induction fuel with
  | zero =>
      intro ys h
      have : ys = [] := List.length_eq_zero.mp (Nat.le_zero.mp h)
      subst this
      rfl
  | succ fuel ih =>
      intro ys h
      cases ys with
      | nil => rfl
      | cons y ys =>
          simp only [chunksOfAux, List.map_cons, List.sum_cons]
          rw [ih (ys.drop (n - 1)) (by simp only [List.length_drop]; simp at h; omega)]
          simp [List.length_take, List.length_drop]
          omega

theorem settleBatch_stats (outcome : Offer → ClipOutcome) (now : Int)
    (batch : List Offer) (st : RunState) :
    (settleBatch outcome now batch st).stats =
      { st.stats with processed := st.stats.processed + batch.length } := by
  simp [settleBatch]

theorem settleBatch_isActive (outcome : Offer → ClipOutcome) (now : Int)
    (batch : List Offer) (st : RunState) :
    (settleBatch outcome now batch st).isActive = st.isActive := by
  simp [settleBatch]

theorem runBatches_stats (outcome : Offer → ClipOutcome) (now : Int)
    (cb : Nat → Bool) :
    ∀ (bs : List (List Offer)) (k : Nat) (st : RunState),
      st.stats.clipped = 0 → st.stats.alreadyClipped = 0 → st.stats.skipped = 0 →
      st.stats.failed = 0 →
      st.stats.processed + ((bs.map List.length).sum) = st.stats.total →
      (∀ st' ∈ (runBatches outcome now cb k bs st).1,
          st'.stats.clipped = 0 ∧ st'.stats.alreadyClipped = 0 ∧
          st'.stats.skipped = 0 ∧ st'.stats.failed = 0 ∧
          st'.stats.processed ≤ st'.stats.total) ∧
      ((∀ j, cb j = false) → st.isActive = true →
        (runBatches outcome now cb k bs st).2.stats.processed =
          (runBatches outcome now cb k bs st).2.stats.total) := by
  intro bs
  induction bs with
  | nil =>
      intro k st h1 h2 h3 h4 h5
      constructor
      · intro st' hmem
        simp [runBatches] at hmem
      · intro _ _
        simp only [runBatches]
        simp at h5
        omega
  | cons b bs ih =>
      intro k st h1 h2 h3 h4 h5
      by_cases hcb : cb k = true
      · constructor
        · intro st' hmem
          simp [runBatches, hcb] at hmem
        · intro hall _
          exact absurd (hall k) (by simp [hcb])
      · simp only [Bool.not_eq_true] at hcb
        by_cases hact : st.isActive = true
        · have hst' := settleBatch_stats outcome now b st
          have hstats :
              (settleBatch outcome now b st).stats.clipped = 0 ∧
              (settleBatch outcome now b st).stats.alreadyClipped = 0 ∧
              (settleBatch outcome now b st).stats.skipped = 0 ∧
              (settleBatch outcome now b st).stats.failed = 0 ∧
              (settleBatch outcome now b st).stats.processed +
                ((bs.map List.length).sum) =
                (settleBatch outcome now b st).stats.total := by
            rw [hst']
            simp at h5 ⊢
            refine ⟨h1, h2, h3, h4, ?_⟩
            omega
          have ihres := ih (k + 1) (settleBatch outcome now b st)
            hstats.1 hstats.2.1 hstats.2.2.1 hstats.2.2.2.1 hstats.2.2.2.2
          constructor
          · intro st' hmem
            simp only [runBatches, hcb, if_false, hact, if_true, Bool.false_eq_true] at hmem
            rcases List.mem_cons.mp hmem with heq | hmem'
            · subst heq
              rw [hst']
              simp
              refine ⟨h1, h2, h3, h4, ?_⟩
              simp at h5
              omega
            · exact ihres.1 st' hmem'
          · intro hall _
            simp only [runBatches, hcb, if_false, hact, if_true, Bool.false_eq_true]
            exact ihres.2 hall (by rw [settleBatch_isActive]; exact hact)
        · simp only [Bool.not_eq_true] at hact
          constructor
          · intro st' hmem
            simp [runBatches, hcb, hact] at hmem
          · intro _ hacttrue
            rw [hact] at hacttrue
            exact absurd hacttrue (by simp)

theorem runBatches_cancel_length (outcome : Offer → ClipOutcome) (now : Int)
    (cb : Nat → Bool) :
    ∀ (bs : List (List Offer)) (n k : Nat) (st : RunState),
      cb (k + n) = true →
      ((runBatches outcome now cb k bs st).1).length ≤ n := by
  intro bs
  induction bs with
  | nil => intro n k st _; simp [runBatches]
  | cons b bs ih =>
      intro n k st hcb
      by_cases hk : cb k = true
      · simp [runBatches, hk]
      · simp only [Bool.not_eq_true] at hk
        match n with
        | 0 =>
            rw [Nat.add_zero] at hcb
            rw [hk] at hcb
            exact absurd hcb (by simp)
        | n + 1 =>
            by_cases hact : st.isActive = true
            · simp only [runBatches, hk, Bool.false_eq_true, if_false, hact, if_true,
                List.length_cons]
              have := ih n (k + 1) (settleBatch outcome now b st)
                (by rw [Nat.add_right_comm]; exact hcb)
              omega
            · simp only [Bool.not_eq_true] at hact
              simp [runBatches, hk, hact]

theorem toResult_offer (o : Offer) (oc : ClipOutcome) : (toResult o oc).offer = o := by
  cases oc with
  | threw e => rfl
  | ok r =>
      simp only [toResult]
      split <;> rfl

theorem mergeKeyed_prefix (getId : α → String) (idOf : β → String) (mk : β → α) :
    ∀ (l : List β) (acc : List α),
      ∃ tl, mergeKeyed getId idOf mk acc l = acc ++ tl ∧
        ∀ c ∈ tl, ∃ b ∈ l, c = mk b := by
  intro l
  induction l with
  | nil =>
      intro acc
      exact ⟨[], by simp [mergeKeyed], by simp⟩
  | cons b l ih =>
      intro acc
      by_cases h : acc.any (fun c => getId c == idOf b) = true
      · obtain ⟨tl, htl, hmem⟩ := ih acc
        refine ⟨tl, ?_, ?_⟩
        · simp only [mergeKeyed, List.foldl_cons, h, if_true] at htl ⊢
          exact htl
        · intro c hc
          obtain ⟨b', hb', rfl⟩ := hmem c hc
          exact ⟨b', List.mem_cons_of_mem _ hb', rfl⟩
      · simp only [Bool.not_eq_true] at h
        obtain ⟨tl, htl, hmem⟩ := ih (acc ++ [mk b])
        refine ⟨mk b :: tl, ?_, ?_⟩
        · simp only [mergeKeyed, List.foldl_cons, h, Bool.false_eq_true, if_false] at htl ⊢
          rw [htl]
          simp
        · intro c hc
          rcases List.mem_cons.mp hc with rfl | hc'
          · exact ⟨b, List.mem_cons_self _ _, rfl⟩
          · obtain ⟨b', hb', rfl⟩ := hmem c hc'
            exact ⟨b', List.mem_cons_of_mem _ hb', rfl⟩

theorem mergeKeyed_covers (getId : α → String) (idOf : β → String) (mk : β → α)
    (hmk : ∀ b, getId (mk b) = idOf b) :
    ∀ (l : List β) (acc : List α) (b : β), b ∈ l →
      ∃ c ∈ mergeKeyed getId idOf mk acc l, getId c = idOf b := by
  intro l
  induction l with
  | nil => intro acc b hb; simp at hb
  | cons a l ih =>
      intro acc b hb
      by_cases h : acc.any (fun c => getId c == idOf a) = true
      · rcases List.mem_cons.mp hb with rfl | hb'
        · obtain ⟨c, hc, hcid⟩ := List.any_eq_true.mp h
          obtain ⟨tl, htl, _⟩ := mergeKeyed_prefix getId idOf mk l acc
          refine ⟨c, ?_, by simpa using hcid⟩
          simp only [mergeKeyed, List.foldl_cons, h, if_true] at htl ⊢
          rw [htl]
          exact List.mem_append_left _ hc
        · have hrec := ih acc b hb'
          simp only [mergeKeyed, List.foldl_cons, h, if_true] at hrec ⊢
          exact hrec
      · simp only [Bool.not_eq_true] at h
        rcases List.mem_cons.mp hb with rfl | hb'
        · obtain ⟨tl, htl, _⟩ := mergeKeyed_prefix getId idOf mk l (acc ++ [mk b])
          refine ⟨mk b, ?_, hmk b⟩
          simp only [mergeKeyed, List.foldl_cons, h, Bool.false_eq_true, if_false] at htl ⊢
          rw [htl]
          exact List.mem_append_left _ (by simp)
        · have hrec := ih (acc ++ [mk a]) b hb'
          simp only [mergeKeyed, List.foldl_cons, h, Bool.false_eq_true, if_false] at hrec ⊢
          exact hrec

theorem mergeKeyed_all_present (getId : α → String) (idOf : β → String) (mk : β → α) :
    ∀ (l : List β) (acc : List α),
      (∀ b ∈ l, acc.any (fun c => getId c == idOf b) = true) →
      mergeKeyed getId idOf mk acc l = acc := by
  intro l
  induction l with
  | nil => intro acc _; simp [mergeKeyed]
  | cons b l ih =>
      intro acc hall
      have hb : acc.any (fun c => getId c == idOf b) = true :=
        hall b (List.mem_cons_self _ _)
      simp only [mergeKeyed, List.foldl_cons, hb, if_true]
      exact ih acc (fun b' hb' => hall b' (List.mem_cons_of_mem _ hb'))

theorem mergeKeyed_idem (getId : α → String) (idOf : β → String) (mk mk2 : β → α)
    (hmk : ∀ b, getId (mk b) = idOf b) (l : List β) (acc : List α) :
    mergeKeyed getId idOf mk2 (mergeKeyed getId idOf mk acc l) l =
      mergeKeyed getId idOf mk acc l := by
  apply mergeKeyed_all_present
  intro b hb
  obtain ⟨c, hc, hcid⟩ := mergeKeyed_covers getId idOf mk hmk l acc b hb
  exact List.any_eq_true.mpr ⟨c, hc, by simp [hcid]⟩

/-! ### Claim C6: start-run on an empty offer list -/

/-- C6 counterexample: the start-run handler, given an empty (but
present) offer list, answers with a success snapshot (run active, total
0), not with an error. -/
theorem c6_counterexample :
    handleStartBackgroundClipping (some ([] : List Offer)) =
      Except.ok ⟨true, ⟨0, 0, 0, 0, 0, 0⟩⟩ := rfl

/-- C6 (amended): the start-run command returns an active run state
snapshot with `total` the length of the offers list for every present
list, the empty list included; it returns an error exactly when the
`offers` field is absent from the message (reading `length` throws). -/
theorem c6_amended :
    (∀ offers : List Offer,
      handleStartBackgroundClipping (some offers) =
        Except.ok ⟨true, ⟨offers.length, 0, 0, 0, 0, 0⟩⟩) ∧
    handleStartBackgroundClipping none =
      Except.error "Cannot read properties of undefined (reading 'length')" :=
  ⟨fun _ => rfl, rfl⟩

/-! ### Claim C7: idempotent keyed merge into the durable collections -/

/-- C7: the durable-collection merges are idempotent and keyed by offer
identifier: merging items whose identifiers are all already present
leaves the collection unchanged, merging the same items twice equals
merging them once (for the clipped and the skipped collection alike),
and merging one offer twice into an empty collection yields exactly one
record. -/
theorem c7_merge_idempotent :
    ∀ (existing : List ClippedCoupon) (offs : List Offer) (now now2 : Int)
      (existingS newRecs : List SkippedCoupon) (o : Offer),
    ((∀ x ∈ offs, ∃ c ∈ existing, c.offer.id = x.id) →
        mergeClipped existing offs now = existing) ∧
    mergeClipped (mergeClipped existing offs now) offs now2 =
      mergeClipped existing offs now ∧
    ((∀ s ∈ newRecs, ∃ c ∈ existingS, c.offer.id = s.offer.id) →
        mergeSkipped existingS newRecs = existingS) ∧
    mergeSkipped (mergeSkipped existingS newRecs) newRecs =
      mergeSkipped existingS newRecs ∧
    mergeClipped (mergeClipped [] [o] now) [o] now2 = [mkClippedRecord o now] := by
  intro existing offs now now2 existingS newRecs o
  refine ⟨?_, ?_, ?_, ?_, ?_⟩
  · intro hall
    apply mergeKeyed_all_present
    intro x hx
    obtain ⟨c, hc, hcid⟩ := hall x hx
    exact List.any_eq_true.mpr ⟨c, hc, by simp [hcid]⟩
  · exact mergeKeyed_idem (fun c => c.offer.id) (fun x => x.id)
      (fun x => mkClippedRecord x now) (fun x => mkClippedRecord x now2)
      (fun _ => rfl) offs existing
  · intro hall
    apply mergeKeyed_all_present
    intro s hs
    obtain ⟨c, hc, hcid⟩ := hall s hs
    exact List.any_eq_true.mpr ⟨c, hc, by simp [hcid]⟩
  · exact mergeKeyed_idem (fun c => c.offer.id) (fun s => s.offer.id)
      (fun s => s) (fun s => s) (fun _ => rfl) newRecs existingS
  · have h2 : mergeClipped (mergeClipped [] [o] now) [o] now2 =
        mergeClipped [] [o] now := by
      exact mergeKeyed_idem (fun c => c.offer.id) (fun x => x.id)
        (fun x => mkClippedRecord x now) (fun x => mkClippedRecord x now2)
        (fun _ => rfl) [o] []
    have h1 : mergeClipped [] [o] now = [mkClippedRecord o now] := by
      simp [mergeClipped, mergeKeyed]
    rw [h1] at h2
    exact h2

/-- C7 witness: a concrete already-present merge is a no-op, and a
double merge of a fresh offer leaves exactly one record. -/
theorem c7_witness :
    mergeClipped [mkClippedRecord ⟨"a", none⟩ 1] [⟨"a", none⟩] 2 =
      [mkClippedRecord ⟨"a", none⟩ 1] ∧
    mergeClipped (mergeClipped [] [⟨"a", none⟩] 1) [⟨"a", none⟩] 2 =
      [mkClippedRecord ⟨"a", none⟩ 1] ∧
    mergeSkipped [⟨⟨"b", none⟩, 0, .limitExceeded, "m", "skipped"⟩]
        [⟨⟨"b", none⟩, 9, .notEligible, "m2", "skipped"⟩] =
      [⟨⟨"b", none⟩, 0, .limitExceeded, "m", "skipped"⟩] :=
  ⟨(c7_merge_idempotent [mkClippedRecord ⟨"a", none⟩ 1] [⟨"a", none⟩] 2 2 [] []
      ⟨"a", none⟩).1 (by decide),
   (c7_merge_idempotent [] [⟨"a", none⟩] 1 2 [] [] ⟨"a", none⟩).2.2.2.2,
   (c7_merge_idempotent [] [] 0 0 [⟨⟨"b", none⟩, 0, .limitExceeded, "m", "skipped"⟩]
      [⟨⟨"b", none⟩, 9, .notEligible, "m2", "skipped"⟩] ⟨"a", none⟩).2.2.1
     (by decide)⟩

/-! ### Claim C8: startup retention sweep -/

/-- C8: the startup retention sweep keeps exactly the clipped records
without a date or whose date is strictly newer than the 90-day cutoff;
in particular a dated record at or before the cutoff (outside the
window) is removed and a dated record after the cutoff (inside the
window) is retained. -/
theorem c8_retention_sweep :
    ∀ (now : Int) (coupons : List ClippedCoupon) (c : ClippedCoupon),
      (c ∈ sweepRetention now coupons ↔
        c ∈ coupons ∧ (c.clippedDate = none ∨
          ∃ d, c.clippedDate = some d ∧ retentionCutoff now < d)) ∧
      (∀ d : Int, c ∈ coupons → c.clippedDate = some d →
        ((d ≤ retentionCutoff now → c ∉ sweepRetention now coupons) ∧
         (retentionCutoff now < d → c ∈ sweepRetention now coupons))) := by
  intro now coupons c
  constructor
  · rw [sweepRetention, List.mem_filter]
    cases hd : c.clippedDate with
    | none => simp [hd]
    | some d => simp [hd]
  · intro d hmem hd
    constructor
    · intro hle hin
      rw [sweepRetention, List.mem_filter] at hin
      rw [hd] at hin
      simp at hin
      omega
    · intro hlt
      rw [sweepRetention, List.mem_filter]
      rw [hd]
      simpa [hmem] using hlt

/-- C8 witness: with `now` = 8000000000 the cutoff is 224000000; a
record dated 0 is swept away and one dated 7999999999 is retained. -/
theorem c8_witness :
    (⟨⟨"old", none⟩, some 0, "clipped"⟩ : ClippedCoupon) ∉
      sweepRetention 8000000000
        [⟨⟨"old", none⟩, some 0, "clipped"⟩, ⟨⟨"new", none⟩, some 7999999999, "clipped"⟩] ∧
    (⟨⟨"new", none⟩, some 7999999999, "clipped"⟩ : ClippedCoupon) ∈
      sweepRetention 8000000000
        [⟨⟨"old", none⟩, some 0, "clipped"⟩, ⟨⟨"new", none⟩, some 7999999999, "clipped"⟩] :=
  ⟨((c8_retention_sweep 8000000000
      [⟨⟨"old", none⟩, some 0, "clipped"⟩, ⟨⟨"new", none⟩, some 7999999999, "clipped"⟩]
      ⟨⟨"old", none⟩, some 0, "clipped"⟩).2 0 (by decide) rfl).1 (by decide),
   ((c8_retention_sweep 8000000000
      [⟨⟨"old", none⟩, some 0, "clipped"⟩, ⟨⟨"new", none⟩, some 7999999999, "clipped"⟩]
      ⟨⟨"new", none⟩, some 7999999999, "clipped"⟩).2 7999999999 (by decide) rfl).2
     (by decide)⟩

/-! ### Claim C9: session history bounds -/

/-- C9 counterexample: a 51-entry history exceeds the configured
maximum of 50 yet the startup trim leaves it untouched, because the
startup path only trims above `MAX_SESSION_HISTORY` = 100. -/
theorem c9_counterexample :
    startupTrimSessions ((List.range 51).map Session.mk) =
      (List.range 51).map Session.mk ∧
    ((List.range 51).map Session.mk).length = 51 ∧
    MAX_SESSIONS < ((List.range 51).map Session.mk).length := by
  refine ⟨?_, by decide, by decide⟩
  decide

/-- C9 (amended): appending a session always trims to the most recent
`MAX_SESSIONS` (= 50) entries — appending at the maximum evicts the
oldest entry — but the startup trim keeps the most recent 50 only when
the history exceeds `MAX_SESSION_HISTORY` (= 100) entries, and leaves
histories of 51 to 100 entries untouched. -/
theorem c9_amended :
    ∀ (ss : List Session) (s : Session),
      (saveClippingSession ss s).length = min (ss.length + 1) MAX_SESSIONS ∧
      (MAX_SESSIONS ≤ ss.length →
        saveClippingSession ss s = (ss ++ [s]).drop (ss.length + 1 - MAX_SESSIONS)) ∧
      (MAX_SESSION_HISTORY < ss.length →
        startupTrimSessions ss = ss.drop (ss.length - MAX_SESSIONS)) ∧
      (ss.length ≤ MAX_SESSION_HISTORY → startupTrimSessions ss = ss) := by
  intro ss s
  refine ⟨?_, ?_, ?_, ?_⟩
  · by_cases h : (ss ++ [s]).length > MAX_SESSIONS
    · simp only [saveClippingSession, h, if_true]
      simp at h ⊢
      omega
    · simp only [saveClippingSession, h, if_false]
      simp at h ⊢
      omega
  · intro h
    have hlen : (ss ++ [s]).length > MAX_SESSIONS := by
      simp
      simp [MAX_SESSIONS] at h ⊢
      omega
    simp only [saveClippingSession, hlen, if_true]
    congr 1
    simp
  · intro h
    have h' : ss.length > MAX_SESSION_HISTORY := h
    simp only [startupTrimSessions, h', if_true]
  · intro h
    have h' : ¬ ss.length > MAX_SESSION_HISTORY := by omega
    simp only [startupTrimSessions, h', if_false]

/-- C9 witness: appending to a 50-entry history keeps the length at 50
and evicts the oldest entry; the startup trim leaves the 50-entry
history unchanged. -/
theorem c9_witness :
    (saveClippingSession ((List.range 50).map Session.mk) (Session.mk 50)).length =
      min (((List.range 50).map Session.mk).length + 1) MAX_SESSIONS ∧
    saveClippingSession ((List.range 50).map Session.mk) (Session.mk 50) =
      (((List.range 50).map Session.mk) ++ [Session.mk 50]).drop
        (((List.range 50).map Session.mk).length + 1 - MAX_SESSIONS) ∧
    startupTrimSessions ((List.range 50).map Session.mk) =
      (List.range 50).map Session.mk :=
  ⟨(c9_amended ((List.range 50).map Session.mk) (Session.mk 50)).1,
   (c9_amended ((List.range 50).map Session.mk) (Session.mk 50)).2.1 (by decide),
   (c9_amended ((List.range 50).map Session.mk) (Session.mk 50)).2.2.2 (by decide)⟩

/-! ### Claim C10: successful unskipped results are persisted as clipped -/

/-- C10: every batch result with `success` true and `wasSkipped` not
true — results reported as already clipped included — is appended to the
durable clipped-coupons collection when its identifier is not already
present, as a record whose `clippedDate` is the persistence time `now`
(not the provider's `clipTs`) and whose `status` is `clipped`. -/
theorem c10_clipped_persistence :
    ∀ (outcome : Offer → ClipOutcome) (now : Int) (batch : List Offer)
      (st : RunState) (o : Offer),
      o ∈ batch →
      (toResult o (outcome o)).success = true →
      (toResult o (outcome o)).wasSkipped = false →
      (∀ c ∈ st.clippedCoupons, c.offer.id ≠ o.id) →
      ∃ c ∈ (settleBatch outcome now batch st).clippedCoupons,
        c.offer.id = o.id ∧ c.clippedDate = some now ∧ c.status = "clipped" := by
  intro outcome now batch st o hb hsucc hskip hfresh
  have hres : toResult o (outcome o) ∈ batch.map (fun x => toResult x (outcome x)) :=
    List.mem_map_of_mem _ hb
  have hnew : o ∈ (batch.map (fun x => toResult x (outcome x))).filterMap
      (fun r => if r.success && (r.wasAlreadyClipped || !r.wasSkipped) then some r.offer
        else none) := by
    apply List.mem_filterMap.mpr
    refine ⟨toResult o (outcome o), hres, ?_⟩
    rw [hsucc, hskip, toResult_offer]
    simp
  obtain ⟨c, hc, hcid⟩ :=
    mergeKeyed_covers (fun c : ClippedCoupon => c.offer.id) (fun x : Offer => x.id)
      (fun x => mkClippedRecord x now) (fun _ => rfl) _ st.clippedCoupons o hnew
  obtain ⟨tl, htl, hmemtl⟩ :=
    mergeKeyed_prefix (fun c : ClippedCoupon => c.offer.id) (fun x : Offer => x.id)
      (fun x => mkClippedRecord x now)
      ((batch.map (fun x => toResult x (outcome x))).filterMap
        (fun r => if r.success && (r.wasAlreadyClipped || !r.wasSkipped) then some r.offer
          else none)) st.clippedCoupons
  rw [htl] at hc
  rcases List.mem_append.mp hc with hold | hnewmem
  · exact absurd hcid (hfresh c hold)
  · obtain ⟨b, _, rfl⟩ := hmemtl c hnewmem
    refine ⟨mkClippedRecord b now, ?_, hcid, rfl, rfl⟩
    show mkClippedRecord b now ∈ (settleBatch outcome now batch st).clippedCoupons
    simp only [settleBatch]
    show mkClippedRecord b now ∈ mergeClipped st.clippedCoupons _ now
    rw [mergeClipped, htl]
    exact List.mem_append_right _ hnewmem

/-- C10 witness: a single-offer batch whose response reports
already-clipped (success, not skipped) persists a record dated at the
persistence time 99, not at the offer's own `clipTs` 12345. -/
theorem c10_witness :
    ∃ c ∈ (settleBatch
        (fun _ => ClipOutcome.ok { success := true, wasAlreadyClipped := true }) 99
        [⟨"w1", some 12345⟩]
        ⟨true, ⟨1, 0, 0, 0, 0, 0⟩, [], []⟩).clippedCoupons,
      c.offer.id = (⟨"w1", some 12345⟩ : Offer).id ∧
      c.clippedDate = some 99 ∧ c.status = "clipped" :=
  c10_clipped_persistence
    (fun _ => ClipOutcome.ok { success := true, wasAlreadyClipped := true }) 99
    [⟨"w1", some 12345⟩] ⟨true, ⟨1, 0, 0, 0, 0, 0⟩, [], []⟩ ⟨"w1", some 12345⟩
    (by decide) rfl rfl (by simp)

/-! ### Concrete scenario inputs used by the scenario claims -/

/-- A concrete offer with identifier `o<n>`. -/
def mkOffer (n : Nat) : Offer := ⟨"o" ++ toString n, none⟩

/-- A one-offer run whose single outcome is a fresh clip. -/
def runC1 : List RunState × RunState :=
  processOffersInBackground [mkOffer 1]
    (fun _ => ClipOutcome.ok { success := true }) (fun _ => false) 5 [] []

/-- Per-offer outcomes for the two-offer unknown-reason scenario:
offer `o1` is skipped with reason `unknown`, offer `o2` is skipped with
reason `unknown_with_clipid`. -/
def outcomeC2 (x : Offer) : ClipOutcome :=
  if x.id = "o1" then
    .ok { success := true, wasSkipped := true, reason := some .unknown }
  else
    .ok { success := true, wasSkipped := true, reason := some .unknownWithClipid }

/-- The two-offer unknown-reason run. -/
def runC2 : List RunState × RunState :=
  processOffersInBackground [mkOffer 1, mkOffer 2] outcomeC2 (fun _ => false) 1000 [] []

/-- The seven offers of the end-to-end scenario. -/
def offersC3 : List Offer :=
  [mkOffer 1, mkOffer 2, mkOffer 3, mkOffer 4, mkOffer 5, mkOffer 6, mkOffer 7]

/-- Per-offer outcomes of the end-to-end scenario: `o1`-`o5` clip
freshly, `o6` is already clipped, `o7` is skipped with reason
`limit_exceeded`. -/
def outcomeC3 (x : Offer) : ClipOutcome :=
  if x.id = "o6" then .ok { success := true, wasAlreadyClipped := true }
  else if x.id = "o7" then
    .ok { success := true, wasSkipped := true, reason := some .limitExceeded }
  else .ok { success := true }

/-- The seven-offer end-to-end run. -/
def runC3 : List RunState × RunState :=
  processOffersInBackground offersC3 outcomeC3 (fun _ => false) 1000 [] []

/-! ### Claim C1: the stats invariant after each batch -/

/-- C1 counterexample: a one-offer run whose offer clips successfully.
After the first (and only) batch settles the stats are
`{total 1, processed 1, clipped 0, alreadyClipped 0, skipped 0,
failed 0}`, and `processed = 1` differs from
`clipped + alreadyClipped + skipped + failed = 0`: the claimed equality
fails because the four per-category counters are never incremented. -/
theorem c1_counterexample :
    runC1.1.map (fun st => st.stats) = [⟨1, 1, 0, 0, 0, 0⟩] ∧
    ¬ ((1 : Nat) = 0 + 0 + 0 + 0) := by
  constructor
  · decide
  · decide

/-- C1 (amended): after each settled batch the four per-category
counters are still zero (they are initialized but never incremented), so
`processed = clipped + alreadyClipped + skipped + failed` holds only
while `processed = 0`; `processed ≤ total` does hold after every batch,
and a run that is never cancelled ends with `processed = total`. -/
theorem c1_amended :
    ∀ (offers : List Offer) (outcome : Offer → ClipOutcome) (cb : Nat → Bool)
      (now : Int) (c0 : List ClippedCoupon) (s0 : List SkippedCoupon),
      (∀ st ∈ (processOffersInBackground offers outcome cb now c0 s0).1,
          st.stats.clipped = 0 ∧ st.stats.alreadyClipped = 0 ∧
          st.stats.skipped = 0 ∧ st.stats.failed = 0 ∧
          st.stats.processed ≤ st.stats.total) ∧
      ((∀ j, cb j = false) →
        (processOffersInBackground offers outcome cb now c0 s0).2.stats.processed =
          (processOffersInBackground offers outcome cb now c0 s0).2.stats.total) := by
  intro offers outcome cb now c0 s0
  have hbase := runBatches_stats outcome now cb (chunksOf BATCH_SIZE offers) 0
    { isActive := true
      stats := { total := offers.length, processed := 0, clipped := 0,
                 alreadyClipped := 0, skipped := 0, failed := 0 }
      clippedCoupons := c0
      skippedCoupons := s0 }
    rfl rfl rfl rfl (by simpa using chunksOf_sum_length BATCH_SIZE offers)
  constructor
  · intro st hmem
    exact hbase.1 st hmem
  · intro hall
    have hfin := hbase.2 hall rfl
    simp only [processOffersInBackground]
    split
    · simpa using hfin
    · simpa using hfin

/-- C1 witness: the amended statement at the concrete one-offer run. -/
theorem c1_witness :
    ((⟨true, ⟨1, 1, 0, 0, 0, 0⟩, [⟨⟨"o1", none⟩, some 5, "clipped"⟩], []⟩ :
        RunState).stats.clipped = 0 ∧
     (⟨true, ⟨1, 1, 0, 0, 0, 0⟩, [⟨⟨"o1", none⟩, some 5, "clipped"⟩], []⟩ :
        RunState).stats.alreadyClipped = 0 ∧
     (⟨true, ⟨1, 1, 0, 0, 0, 0⟩, [⟨⟨"o1", none⟩, some 5, "clipped"⟩], []⟩ :
        RunState).stats.skipped = 0 ∧
     (⟨true, ⟨1, 1, 0, 0, 0, 0⟩, [⟨⟨"o1", none⟩, some 5, "clipped"⟩], []⟩ :
        RunState).stats.failed = 0 ∧
     (⟨true, ⟨1, 1, 0, 0, 0, 0⟩, [⟨⟨"o1", none⟩, some 5, "clipped"⟩], []⟩ :
        RunState).stats.processed ≤
       (⟨true, ⟨1, 1, 0, 0, 0, 0⟩, [⟨⟨"o1", none⟩, some 5, "clipped"⟩], []⟩ :
        RunState).stats.total) ∧
    runC1.2.stats.processed = runC1.2.stats.total :=
  ⟨(c1_amended [mkOffer 1] (fun _ => ClipOutcome.ok { success := true })
      (fun _ => false) 5 [] []).1 _ (by decide),
   (c1_amended [mkOffer 1] (fun _ => ClipOutcome.ok { success := true })
      (fun _ => false) 5 [] []).2 (fun _ => rfl)⟩

/-! ### Claim C3: the seven-offer end-to-end scenario -/

/-- C3 counterexample: in the seven-offer scenario (five fresh clips,
one already-clipped, one skipped limit_exceeded — the claimed outcome
multiset does not even fit two batches of 5 and 2) the final stats are
`{7, 7, 0, 0, 0, 0}`, not the claimed `{7, 7, 5, 1, 2, 1}`: the four
per-category counters are never incremented (and the claimed counters
sum to 9 ≠ 7 anyway). -/
theorem c3_counterexample :
    runC3.2.stats = ⟨7, 7, 0, 0, 0, 0⟩ ∧
    (⟨7, 7, 0, 0, 0, 0⟩ : ClippingStats) ≠ ⟨7, 7, 5, 1, 2, 1⟩ := by
  constructor
  · decide
  · decide

/-- C3 (amended): seven offers are split into two batches of 5 then 2;
with outcomes [5× clipped] for batch 1 and [1× already-clipped,
1× skipped(limit_exceeded)] for batch 2, the run settles both batches
and ends with stats `{total 7, processed 7}` and all four per-category
counters still 0, the durable skipped-coupons collection gains exactly
one record (the limit_exceeded one), and the clipped-coupons collection
gains the six successful offers. -/
theorem c3_amended :
    chunksOf BATCH_SIZE offersC3 =
      [[mkOffer 1, mkOffer 2, mkOffer 3, mkOffer 4, mkOffer 5],
       [mkOffer 6, mkOffer 7]] ∧
    runC3.1.length = 2 ∧
    runC3.2.stats = ⟨7, 7, 0, 0, 0, 0⟩ ∧
    runC3.2.skippedCoupons.map (fun s => (s.offer.id, s.skipReason)) =
      [("o7", SkipReason.limitExceeded)] ∧
    runC3.2.skippedCoupons.length = 1 ∧
    runC3.2.clippedCoupons.map (fun c => c.offer.id) =
      ["o1", "o2", "o3", "o4", "o5", "o6"] := by
  refine ⟨by decide, by decide, by decide, by decide, by decide, by decide⟩

/-! ### Claim C2 counterexample -/

/-- C2 counterexample: a two-offer run whose responses are
skipped(unknown) for `o1` and skipped(unknown_with_clipid) for `o2`.
The `unknown` response is normalized to expired_or_inactive and IS
persisted as a durable skipped record, and the `skipped` counter stays
0 for both results instead of being incremented. -/
theorem c2_counterexample :
    runC2.2.skippedCoupons.map (fun s => (s.offer.id, s.skipReason)) =
      [("o1", SkipReason.expiredOrInactive)] ∧
    runC2.2.stats.skipped = 0 ∧
    runC2.2.stats.processed = 2 := by
  refine ⟨by decide, by decide, by decide⟩

/-! ### Claim C5: cooperative cancellation at batch boundaries -/

theorem runBatches_cancel_after_one (outcome : Offer → ClipOutcome) (now : Int)
    (cb : Nat → Bool) (hcb0 : cb 0 = false) (hcb1 : cb 1 = true)
    (b1 b2 : List Offer) (bs : List (List Offer)) (st : RunState)
    (hact : st.isActive = true) :
    runBatches outcome now cb 0 (b1 :: b2 :: bs) st =
      ([settleBatch outcome now b1 st],
       { settleBatch outcome now b1 st with isActive := false }) := by
  simp only [runBatches, hcb0, hcb1, hact, Bool.false_eq_true, if_false, if_true]

/-- C5: the scheduler never starts another batch once the shared active
flag is cleared: if the flag is observed cleared before batch `k`, at
most `k` batches settle in the whole run; concretely, for any run over
13 offers whose flag is cleared after batch 1, exactly one batch (5
offers) settles, batches 2 and 3 never start, and the run ends inactive
with `processed = 5` and `total = 13`. -/
theorem c5_cancellation :
    (∀ (offers : List Offer) (outcome : Offer → ClipOutcome) (cb : Nat → Bool)
       (now : Int) (c0 : List ClippedCoupon) (s0 : List SkippedCoupon) (k : Nat),
       cb k = true →
       ((processOffersInBackground offers outcome cb now c0 s0).1).length ≤ k) ∧
    (∀ (offers : List Offer) (outcome : Offer → ClipOutcome)
       (now : Int) (c0 : List ClippedCoupon) (s0 : List SkippedCoupon),
       offers.length = 13 →
       (processOffersInBackground offers outcome (fun j => decide (1 ≤ j)) now c0 s0).1.length
           = 1 ∧
       (processOffersInBackground offers outcome (fun j => decide (1 ≤ j)) now c0
           s0).2.stats.processed = 5 ∧
       (processOffersInBackground offers outcome (fun j => decide (1 ≤ j)) now c0
           s0).2.stats.total = 13 ∧
       (processOffersInBackground offers outcome (fun j => decide (1 ≤ j)) now c0
           s0).2.isActive = false) := by
  constructor
  · intro offers outcome cb now c0 s0 k hcb
    exact runBatches_cancel_length outcome now cb (chunksOf BATCH_SIZE offers) k 0
      { isActive := true
        stats := { total := offers.length, processed := 0, clipped := 0,
                   alreadyClipped := 0, skipped := 0, failed := 0 }
        clippedCoupons := c0
        skippedCoupons := s0 }
      (by simpa using hcb)
  · intro offers outcome now c0 s0 hlen
    cases offers with
    | nil => simp at hlen
    | cons a xs =>
        have hxs : xs.length = 12 := by simpa using hlen
        have hdropne : (xs.drop (BATCH_SIZE - 1)).length = 8 := by
          simp [List.length_drop, hxs, BATCH_SIZE]
        have hfin : processOffersInBackground (a :: xs) outcome
            (fun j => decide (1 ≤ j)) now c0 s0 =
            ([settleBatch outcome now (a :: xs.take (BATCH_SIZE - 1))
                ⟨true, ⟨(a :: xs).length, 0, 0, 0, 0, 0⟩, c0, s0⟩],
             { settleBatch outcome now (a :: xs.take (BATCH_SIZE - 1))
                ⟨true, ⟨(a :: xs).length, 0, 0, 0, 0, 0⟩, c0, s0⟩ with
               isActive := false }) := by
          cases hd : xs.drop (BATCH_SIZE - 1) with
          | nil => rw [hd] at hdropne; simp at hdropne
          | cons b zs =>
              simp only [processOffersInBackground, chunksOf_cons, hd]
              rw [runBatches_cancel_after_one _ _ _ (by decide) (by decide) _ _ _ _ rfl]
              simp [settleBatch_isActive]
        rw [hfin]
        refine ⟨rfl, ?_, ?_, rfl⟩
        · show (settleBatch outcome now (a :: xs.take (BATCH_SIZE - 1))
              ⟨true, ⟨(a :: xs).length, 0, 0, 0, 0, 0⟩, c0, s0⟩).stats.processed = 5
          rw [settleBatch_stats]
          simp [List.length_take, hxs, BATCH_SIZE]
        · show (settleBatch outcome now (a :: xs.take (BATCH_SIZE - 1))
              ⟨true, ⟨(a :: xs).length, 0, 0, 0, 0, 0⟩, c0, s0⟩).stats.total = 13
          rw [settleBatch_stats]
          simp [hxs]

/-- The 13 offers of the cancellation scenario. -/
def offers13 : List Offer := (List.range 13).map mkOffer

/-- C5 witness: the cancellation theorem at a concrete 13-offer run
whose flag is cleared after the first batch. -/
theorem c5_witness :
    ((processOffersInBackground offers13 (fun _ => ClipOutcome.ok { success := true })
        (fun j => decide (1 ≤ j)) 5 [] []).1.length = 1 ∧
     (processOffersInBackground offers13 (fun _ => ClipOutcome.ok { success := true })
        (fun j => decide (1 ≤ j)) 5 [] []).2.stats.processed = 5 ∧
     (processOffersInBackground offers13 (fun _ => ClipOutcome.ok { success := true })
        (fun j => decide (1 ≤ j)) 5 [] []).2.stats.total = 13 ∧
     (processOffersInBackground offers13 (fun _ => ClipOutcome.ok { success := true })
        (fun j => decide (1 ≤ j)) 5 [] []).2.isActive = false) ∧
    ((processOffersInBackground offers13 (fun _ => ClipOutcome.ok { success := true })
        (fun j => decide (1 ≤ j)) 5 [] []).1.length ≤ 1) :=
  ⟨c5_cancellation.2 offers13 (fun _ => ClipOutcome.ok { success := true }) 5 [] []
     (by decide),
   c5_cancellation.1 offers13 (fun _ => ClipOutcome.ok { success := true })
     (fun j => decide (1 ≤ j)) 5 [] [] 1 (by decide)⟩

/-! ### Claim C2: which skipped results are persisted -/

theorem toResult_wasSkipped_reason (o : Offer) (oc : ClipOutcome) :
    (toResult o oc).wasSkipped = true →
    (toResult o oc).reason ≠ some SkipReason.unknown ∧ (toResult o oc).reason ≠ none := by
  cases oc with
  | threw e => intro h; simp [toResult] at h
  | ok r =>
      intro h
      by_cases hc : (!r.wasSkipped && !r.success && errMatchesExpired r.error) = true
      · simp [toResult, hc]
      · have hrw : (toResult o (.ok r)).reason =
            (if r.wasSkipped && (r.reason.isNone || r.reason == some SkipReason.unknown)
             then some SkipReason.expiredOrInactive else r.reason) := by
          simp [toResult, hc]
        have hws : r.wasSkipped = true := by
          simpa [toResult, hc] using h
        rw [hrw, hws]
        rcases hr : r.reason with _ | r'
        · simp
        · by_cases hru : r' = SkipReason.unknown
          · subst hru; simp
          · simp [hru]

/-- C2 (amended): a batch result that is a skipped success never
reaches the persistence step with reason `unknown` or a missing reason
(those responses are normalized to expired_or_inactive before
persistence, and are then persisted); among result reasons, the
non-permanent ones unknown_with_clipid, unexpected_response and
cannot_clip leave the durable skipped collection unchanged, the five
permanent ones append a record when the identifier is fresh, and the
`skipped` counter is never incremented in either case. -/
theorem c2_amended :
    ∀ (o : Offer) (oc : ClipOutcome) (st : RunState) (now : Int),
      (toResult o oc).success = true →
      (toResult o oc).wasSkipped = true →
      ((toResult o oc).reason ≠ some SkipReason.unknown ∧
       (toResult o oc).reason ≠ none) ∧
      (((toResult o oc).reason = some SkipReason.unknownWithClipid ∨
        (toResult o oc).reason = some SkipReason.unexpectedResponse ∨
        (toResult o oc).reason = some SkipReason.cannotClip) →
          (settleBatch (fun _ => oc) now [o] st).skippedCoupons = st.skippedCoupons) ∧
      ((toResult o oc).wasAlreadyClipped = false →
        isPermanent ((toResult o oc).reason.getD SkipReason.unknown) = true →
        (∀ c ∈ st.skippedCoupons, c.offer.id ≠ o.id) →
          (settleBatch (fun _ => oc) now [o] st).skippedCoupons =
            st.skippedCoupons ++ [mkSkippedRecord (toResult o oc) now]) ∧
      (settleBatch (fun _ => oc) now [o] st).stats.skipped = st.stats.skipped := by
  intro o oc st now hsucc hskip
  refine ⟨toResult_wasSkipped_reason o oc hskip, ?_, ?_, ?_⟩
  · intro hr
    have hperm : isPermanent ((toResult o oc).reason.getD SkipReason.unknown) = false := by
      rcases hr with h | h | h <;> rw [h] <;> rfl
    simp [settleBatch, mergeSkipped, mergeKeyed, hsucc, hskip, hperm]
  · intro halready hperm hfresh
    have hany : st.skippedCoupons.any
        (fun c => c.offer.id == (mkSkippedRecord (toResult o oc) now).offer.id) = false := by
      rw [List.any_eq_false]
      intro c hc
      simp only [mkSkippedRecord, toResult_offer, beq_iff_eq]
      exact hfresh c hc
    simp [settleBatch, mergeSkipped, mergeKeyed, hsucc, hskip, halready, hperm, hany]
    intro c hc
    simp only [mkSkippedRecord, toResult_offer]
    exact hfresh c hc
  · rw [settleBatch_stats]

/-- C2 witness: the amended statement at two concrete one-offer
settlements — an unknown_with_clipid skip (no record, counter
untouched) and a limit_exceeded skip (one fresh record appended). -/
theorem c2_witness :
    ((toResult (mkOffer 1)
        (.ok { success := true, wasSkipped := true,
               reason := some .unknownWithClipid })).reason ≠
        some SkipReason.unknown ∧
     (toResult (mkOffer 1)
        (.ok { success := true, wasSkipped := true,
               reason := some .unknownWithClipid })).reason ≠ none) ∧
    (settleBatch
        (fun _ => .ok { success := true, wasSkipped := true,
                        reason := some .unknownWithClipid }) 7 [mkOffer 1]
        ⟨true, ⟨1, 0, 0, 0, 0, 0⟩, [], []⟩).skippedCoupons = [] ∧
    (settleBatch
        (fun _ => .ok { success := true, wasSkipped := true,
                        reason := some .unknownWithClipid }) 7 [mkOffer 1]
        ⟨true, ⟨1, 0, 0, 0, 0, 0⟩, [], []⟩).stats.skipped = 0 ∧
    (settleBatch
        (fun _ => .ok { success := true, wasSkipped := true,
                        reason := some .limitExceeded }) 7 [mkOffer 1]
        ⟨true, ⟨1, 0, 0, 0, 0, 0⟩, [], []⟩).skippedCoupons =
      [] ++ [mkSkippedRecord (toResult (mkOffer 1)
        (.ok { success := true, wasSkipped := true,
               reason := some .limitExceeded })) 7] :=
  ⟨(c2_amended (mkOffer 1)
      (.ok { success := true, wasSkipped := true, reason := some .unknownWithClipid })
      ⟨true, ⟨1, 0, 0, 0, 0, 0⟩, [], []⟩ 7 rfl rfl).1,
   (c2_amended (mkOffer 1)
      (.ok { success := true, wasSkipped := true, reason := some .unknownWithClipid })
      ⟨true, ⟨1, 0, 0, 0, 0, 0⟩, [], []⟩ 7 rfl rfl).2.1 (Or.inl rfl),
   (c2_amended (mkOffer 1)
      (.ok { success := true, wasSkipped := true, reason := some .unknownWithClipid })
      ⟨true, ⟨1, 0, 0, 0, 0, 0⟩, [], []⟩ 7 rfl rfl).2.2.2,
   (c2_amended (mkOffer 1)
      (.ok { success := true, wasSkipped := true, reason := some .limitExceeded })
      ⟨true, ⟨1, 0, 0, 0, 0, 0⟩, [], []⟩ 7 rfl rfl).2.2.1 rfl rfl
     (by simp)⟩

/-! ### Claim C4: the offer classifier -/

/-- C4 counterexample: the classifier's substring matching is
case-sensitive. The message "PAST EXPIRY" contains "past expiry" up to
ASCII casing (its lowercasing is exactly "past expiry"), yet a status-0
item without a clip id carrying it classifies as skipped(cannot_clip),
not skipped(expired_or_inactive). -/
theorem c4_counterexample :
    lowerStr "PAST EXPIRY" = "past expiry" ∧
    strIncludes "past expiry" "past expiry" = true ∧
    strIncludes "PAST EXPIRY" "past expiry" = false ∧
    classifyClipItem ⟨0, none, some "PAST EXPIRY"⟩ =
      { success := true, wasSkipped := true, reason := some .cannotClip,
        errorMsg := some "PAST EXPIRY" } ∧
    (some SkipReason.cannotClip ≠ some SkipReason.expiredOrInactive) := by
  refine ⟨by decide, by decide, by decide, by decide, by decide⟩

/-- C4 (amended): the classifier is a deterministic function of the raw
outcome (status code, clip id, error message) matching the skip-reason
patterns in priority order — not-yet-active/past-expiry/shutoff to
expired_or_inactive first (regardless of status, once the clipped and
already-clipped branches fail), then for a status-0 item without a clip
id: region/store, then limit/maximum, then qualify/eligible, then
display/promotional-period, then cannot_clip; a status-0 item with a
clip id and an unrecognized message gives unknown_with_clipid, and any
other item gives unexpected_response — with all substring matching
case-sensitive on the lowercase pattern literals (a message containing
"past expiry" only in another casing does not match). -/
theorem c4_amended :
    ∀ it : ClipItem,
      (expiredMsg it.errorMsg = true →
       ¬ (it.status = 1 ∧ truthyStr it.clipId = true) →
       ¬ (it.status = 0 ∧ truthyStr it.clipId = true ∧
          msgIncludes it.errorMsg "already clipped" = true) →
        classifyClipItem it =
          { success := true, wasSkipped := true, reason := some .expiredOrInactive,
            errorMsg := it.errorMsg }) ∧
      (it.status = 0 → truthyStr it.clipId = false → expiredMsg it.errorMsg = false →
        ((msgIncludes it.errorMsg "region" = true ∨
          msgIncludes it.errorMsg "store" = true) →
          classifyClipItem it =
            { success := true, wasSkipped := true,
              reason := some .notAvailableInStore, errorMsg := it.errorMsg }) ∧
        (msgIncludes it.errorMsg "region" = false →
         msgIncludes it.errorMsg "store" = false →
         (msgIncludes it.errorMsg "limit" = true ∨
          msgIncludes it.errorMsg "maximum" = true) →
          classifyClipItem it =
            { success := true, wasSkipped := true,
              reason := some .limitExceeded, errorMsg := it.errorMsg }) ∧
        (msgIncludes it.errorMsg "region" = false →
         msgIncludes it.errorMsg "store" = false →
         msgIncludes it.errorMsg "limit" = false →
         msgIncludes it.errorMsg "maximum" = false →
         (msgIncludes it.errorMsg "qualify" = true ∨
          msgIncludes it.errorMsg "eligible" = true) →
          classifyClipItem it =
            { success := true, wasSkipped := true,
              reason := some .notEligible, errorMsg := it.errorMsg }) ∧
        (msgIncludes it.errorMsg "region" = false →
         msgIncludes it.errorMsg "store" = false →
         msgIncludes it.errorMsg "limit" = false →
         msgIncludes it.errorMsg "maximum" = false →
         msgIncludes it.errorMsg "qualify" = false →
         msgIncludes it.errorMsg "eligible" = false →
         (msgIncludes it.errorMsg "display" = true ∨
          msgIncludes it.errorMsg "promotional period" = true) →
          classifyClipItem it =
            { success := true, wasSkipped := true,
              reason := some .displayPeriodEnded, errorMsg := it.errorMsg }) ∧
        (msgIncludes it.errorMsg "region" = false →
         msgIncludes it.errorMsg "store" = false →
         msgIncludes it.errorMsg "limit" = false →
         msgIncludes it.errorMsg "maximum" = false →
         msgIncludes it.errorMsg "qualify" = false →
         msgIncludes it.errorMsg "eligible" = false →
         msgIncludes it.errorMsg "display" = false →
         msgIncludes it.errorMsg "promotional period" = false →
          classifyClipItem it =
            { success := true, wasSkipped := true,
              reason := some .cannotClip, errorMsg := it.errorMsg })) ∧
      (it.status = 0 → truthyStr it.clipId = true →
       msgIncludes it.errorMsg "already clipped" = false →
       expiredMsg it.errorMsg = false →
        classifyClipItem it =
          { success := true, wasSkipped := true,
            reason := some .unknownWithClipid,
            errorMsg := some (orElseStr it.errorMsg "Has clipId but status 0") }) ∧
      (it.status ≠ 0 → ¬ (it.status = 1 ∧ truthyStr it.clipId = true) →
       expiredMsg it.errorMsg = false →
        classifyClipItem it =
          { success := true, wasSkipped := true,
            reason := some .unexpectedResponse,
            errorMsg := some (orElseStr it.errorMsg "No error message") }) := by
  intro it
  refine ⟨?_, ?_, ?_, ?_⟩
  · intro hexp h1 h2
    simp only [classifyClipItem]
    rw [if_neg h1, if_neg h2, if_pos hexp]
  · intro hs hc hexp
    have h1 : ¬ (it.status = 1 ∧ truthyStr it.clipId = true) := by
      rintro ⟨h, _⟩
      rw [hs] at h
      exact absurd h (by decide)
    have h2 : ¬ (it.status = 0 ∧ truthyStr it.clipId = true ∧
        msgIncludes it.errorMsg "already clipped" = true) := by
      rintro ⟨_, h, _⟩
      rw [hc] at h
      exact absurd h (by decide)
    have h3 : ¬ (expiredMsg it.errorMsg = true) := by simp [hexp]
    have h4 : it.status = 0 ∧ ¬ (truthyStr it.clipId = true) := ⟨hs, by simp [hc]⟩
    have base : classifyClipItem it =
        { success := true, wasSkipped := true,
          reason := some (statusZeroNoClipReason it.errorMsg),
          errorMsg := it.errorMsg } := by
      simp only [classifyClipItem]
      rw [if_neg h1, if_neg h2, if_neg h3, if_pos h4]
    refine ⟨?_, ?_, ?_, ?_, ?_⟩
    · intro hr
      rw [base]
      have : statusZeroNoClipReason it.errorMsg = .notAvailableInStore := by
        simp only [statusZeroNoClipReason]
        rcases hr with h | h <;> simp [h]
      rw [this]
    · intro hra hrb hr
      rw [base]
      have : statusZeroNoClipReason it.errorMsg = .limitExceeded := by
        simp only [statusZeroNoClipReason]
        rcases hr with h | h <;> simp [hra, hrb, h]
      rw [this]
    · intro hra hrb hla hlb hr
      rw [base]
      have : statusZeroNoClipReason it.errorMsg = .notEligible := by
        simp only [statusZeroNoClipReason]
        rcases hr with h | h <;> simp [hra, hrb, hla, hlb, h]
      rw [this]
    · intro hra hrb hla hlb hqa hqb hr
      rw [base]
      have : statusZeroNoClipReason it.errorMsg = .displayPeriodEnded := by
        simp only [statusZeroNoClipReason]
        rcases hr with h | h <;> simp [hra, hrb, hla, hlb, hqa, hqb, h]
      rw [this]
    · intro hra hrb hla hlb hqa hqb hda hdb
      rw [base]
      have : statusZeroNoClipReason it.errorMsg = .cannotClip := by
        simp only [statusZeroNoClipReason]
        simp [hra, hrb, hla, hlb, hqa, hqb, hda, hdb]
      rw [this]
  · intro hs hc halready hexp
    have h1 : ¬ (it.status = 1 ∧ truthyStr it.clipId = true) := by
      rintro ⟨h, _⟩
      rw [hs] at h
      exact absurd h (by decide)
    have h2 : ¬ (it.status = 0 ∧ truthyStr it.clipId = true ∧
        msgIncludes it.errorMsg "already clipped" = true) := by
      rintro ⟨_, _, h⟩
      rw [halready] at h
      exact absurd h (by decide)
    have h3 : ¬ (expiredMsg it.errorMsg = true) := by simp [hexp]
    have h4 : ¬ (it.status = 0 ∧ ¬ (truthyStr it.clipId = true)) := by
      rintro ⟨_, h⟩
      exact h hc
    have h5 : it.status = 0 ∧ truthyStr it.clipId = true := ⟨hs, hc⟩
    have h6 : ¬ (msgIncludes it.errorMsg "already clipped" = true) := by simp [halready]
    simp only [classifyClipItem]
    rw [if_neg h1, if_neg h2, if_neg h3, if_neg h4, if_pos h5, if_neg h6]
  · intro hs h1 hexp
    have h2 : ¬ (it.status = 0 ∧ truthyStr it.clipId = true ∧
        msgIncludes it.errorMsg "already clipped" = true) := by
      rintro ⟨h, _, _⟩
      exact hs h
    have h3 : ¬ (expiredMsg it.errorMsg = true) := by simp [hexp]
    have h4 : ¬ (it.status = 0 ∧ ¬ (truthyStr it.clipId = true)) := by
      rintro ⟨h, _⟩
      exact hs h
    have h5 : ¬ (it.status = 0 ∧ truthyStr it.clipId = true) := by
      rintro ⟨h, _⟩
      exact hs h
    simp only [classifyClipItem]
    rw [if_neg h1, if_neg h2, if_neg h3, if_neg h4, if_neg h5]

/-- C4 witness: the amended classifier facts at concrete items — a
lowercase "past expiry" message classifies expired_or_inactive, a
message matching both the store and limit patterns takes the
higher-priority not_available_in_store, and a status-2 item falls
through to unexpected_response. -/
theorem c4_witness :
    classifyClipItem ⟨0, none, some "past expiry"⟩ =
      { success := true, wasSkipped := true, reason := some .expiredOrInactive,
        errorMsg := some "past expiry" } ∧
    classifyClipItem ⟨0, none, some "store limit"⟩ =
      { success := true, wasSkipped := true, reason := some .notAvailableInStore,
        errorMsg := some "store limit" } ∧
    classifyClipItem ⟨2, none, some "mystery"⟩ =
      { success := true, wasSkipped := true, reason := some .unexpectedResponse,
        errorMsg := some "mystery" } :=
  ⟨(c4_amended ⟨0, none, some "past expiry"⟩).1 (by decide) (by decide) (by decide),
   ((c4_amended ⟨0, none, some "store limit"⟩).2.1 rfl rfl (by decide)).1
     (Or.inr (by decide)),
   (c4_amended ⟨2, none, some "mystery"⟩).2.2.2 (by decide) (by decide) (by decide)⟩
